import Mathlib

/-!
Shallow embedding of the trigger-timeout guard (`bibtutils.gcp.pubsub.process_trigger`)
and the Slack message sender (`bibtutils.slack.message.send_message`) of the
`bibtutils` library, together with proofs of the behavioural properties of its
specification.

Python exceptions are modelled with `Except PyErr`; the external collaborators
(wall clock, `dateutil.parser.parse`, `datetime.strftime`, `os.environ`,
GCP Secret Manager access, `json.loads`, and `requests.post`) are injected
through an `Env` record, so every theorem quantifies over their behaviour.
Instants are integers (whole seconds since the epoch, the granularity at
which `timedelta.total_seconds()` is exercised by every property below).
-/

set_option linter.unusedVariables false

namespace Bibtutils

/-- Python exception values that can arise in the embedded code.
`timeoutError` carries the two quantities interpolated into the
`TimeoutError` message of `process_trigger`: the threshold `timeout_secs`
and the overage `lapsed.total_seconds() - timeout_secs`. -/
inductive PyErr where
  | timeoutError (timeoutSecs overageSecs : Int)
  | parserError (msg : String)
  | keyError (key : String)
  | binasciiError (msg : String)
  | unicodeDecodeError
  | exc (msg : String)
  deriving DecidableEq

deriving instance DecidableEq for Except

/-- Python truthiness of an optional string argument (`None` and `""` are falsy). -/
def truthyStr : Option String → Bool
  | none => false
  | some s => s ≠ ""

/-- Python truthiness of an optional list argument (`None` and `[]` are falsy). -/
def truthyList : Option (List String) → Bool
  | none => false
  | some l => !l.isEmpty

/-- Python `len` on a string: number of code points. -/
def pyLen (s : String) : Nat := s.data.length

/-- Python slicing `s[:n]`: the first `n` code points. -/
def pySlice (s : String) (n : Nat) : String := ⟨s.data.take n⟩

/-- Value of a character in the standard base64 alphabet, if any. -/
def b64val (c : Char) : Option Nat :=
  if 65 ≤ c.toNat ∧ c.toNat ≤ 90 then some (c.toNat - 65)
  else if 97 ≤ c.toNat ∧ c.toNat ≤ 122 then some (c.toNat - 71)
  else if 48 ≤ c.toNat ∧ c.toNat ≤ 57 then some (c.toNat + 4)
  else if c = '+' then some 62
  else if c = '/' then some 63
  else none

/-- Reassemble 6-bit base64 values into bytes, three per quantum of four,
discarding the spare bits of a trailing quantum of two or three values,
as CPython's `binascii.a2b_base64` does. -/
def b64bytes : List Nat → List Nat
  | a :: b :: c :: d :: rest =>
      (a * 4 + b / 16) :: ((b % 16) * 16 + c / 4) :: ((c % 4) * 64 + d) :: b64bytes rest
  | [a, b] => [a * 4 + b / 16]
  | [a, b, c] => [a * 4 + b / 16, (b % 16) * 16 + c / 4]
  | _ => []

/-- `base64.b64decode` with `validate=False` (the call in `process_trigger`):
characters outside the alphabet are discarded, data ends at the first `=`,
a quantum of one data character is invalid, and an incomplete final quantum
without any padding raises `binascii.Error`. -/
def b64decode (s : String) : Except PyErr (List Nat) :=
  let kept := s.data.filter (fun c => (b64val c).isSome || c == '=')
  let dataChars := kept.takeWhile (fun c => c ≠ '=')
  let padCount := kept.length - dataChars.length
  let vals := dataChars.filterMap b64val
  if vals.length % 4 == 1 then
    Except.error (PyErr.binasciiError "Invalid base64-encoded string")
  else if vals.length % 4 != 0 && padCount == 0 then
    Except.error (PyErr.binasciiError "Incorrect padding")
  else
    Except.ok (b64bytes vals)

/-- Strict UTF-8 decoding of a byte sequence: rejects continuation bytes
in lead position, overlong encodings, surrogates, and code points above
U+10FFFF. `none` on any invalid sequence. -/
def utf8DecodeCore : List Nat → Option (List Char)
  | [] => some []
  | b :: rest =>
    if b < 128 then do
      let cs ← utf8DecodeCore rest
      some (Char.ofNat b :: cs)
    else if b < 194 then none
    else if b < 224 then
      match rest with
      | c :: rest2 =>
        if 128 ≤ c ∧ c < 192 then do
          let cs ← utf8DecodeCore rest2
          some (Char.ofNat ((b - 192) * 64 + (c - 128)) :: cs)
        else none
      | [] => none
    else if b < 240 then
      match rest with
      | c :: d :: rest2 =>
        if (128 ≤ c ∧ c < 192) ∧ (128 ≤ d ∧ d < 192) ∧
            (b ≠ 224 ∨ 160 ≤ c) ∧ (b ≠ 237 ∨ c < 160) then do
          let cs ← utf8DecodeCore rest2
          some (Char.ofNat ((b - 224) * 4096 + (c - 128) * 64 + (d - 128)) :: cs)
        else none
      | _ => none
    else if b < 245 then
      match rest with
      | c :: d :: e :: rest2 =>
        if (128 ≤ c ∧ c < 192) ∧ (128 ≤ d ∧ d < 192) ∧ (128 ≤ e ∧ e < 192) ∧
            (b ≠ 240 ∨ 144 ≤ c) ∧ (b ≠ 244 ∨ c < 144) then do
          let cs ← utf8DecodeCore rest2
          some (Char.ofNat
            ((b - 240) * 262144 + (c - 128) * 4096 + (d - 128) * 64 + (e - 128)) :: cs)
        else none
      | _ => none
    else none

/-- `bytes.decode("utf-8")` on the payload bytes: a strict decode either
succeeds or raises `UnicodeDecodeError`. -/
def utf8Decode (bs : List Nat) : Except PyErr (List Char) :=
  match utf8DecodeCore bs with
  | some cs => Except.ok cs
  | none => Except.error PyErr.unicodeDecodeError

/-- `bytes.decode("utf-8")` packaged as a string. -/
def utf8DecodeStr (bs : List Nat) : Except PyErr String :=
  (utf8Decode bs).map fun cs => ⟨cs⟩

/-- A Pub/Sub `event` dict: string keys to string values (the `"data"` field
holds the base64-encoded payload). -/
abbrev Event := List (String × String)

/-- Python `k in d` on an event dict. -/
def dictContains (d : Event) (k : String) : Bool := d.any (fun p => p.1 == k)

/-- Python `d[k]` on an event dict, only used under a `dictContains` guard. -/
def dictGet (d : Event) (k : String) : String :=
  match d.find? (fun p => p.1 == k) with
  | some p => p.2
  | none => ""

/-- Python `d[k]` as a fallible lookup (`KeyError` when absent). -/
def dictGetE (d : List (String × String)) (k : String) : Except PyErr String :=
  match d.find? (fun p => p.1 == k) with
  | some p => Except.ok p.2
  | none => Except.error (PyErr.keyError k)

/-- Lines 198–201 of `process_trigger`: if the event is present and has a
`"data"` field, base64-decode it and decode the bytes as UTF-8; otherwise
return `None`. -/
def pyPayload (event : Option Event) : Except PyErr (Option String) :=
  match event with
  | some e =>
      if dictContains e "data" then do
        let bs ← b64decode (dictGet e "data")
        let s ← utf8DecodeStr bs
        Except.ok (some s)
      else Except.ok none
  | none => Except.ok none

/-- One block of a Slack message body: a markdown section or a divider. -/
inductive Block where
  | textSection (text : String)
  | divider
  deriving DecidableEq

/-- One Slack attachment: a border color and its blocks. -/
structure Attachment where
  color : String
  blocks : List Block
  deriving DecidableEq

/-- The message dict built by `send_message`: a title block list and the
attachment list. -/
structure SlackMsg where
  blocks : List Block
  attachments : List Attachment
  deriving DecidableEq

/-- `bibtutils.slack.message.SLACK_MAX_TEXT_LENGTH = 3000 - 35`. -/
def SLACK_MAX_TEXT_LENGTH : Nat := 3000 - 35

/-- The truncation applied by `send_message` to `text` and to each entry of
`blocks`: `t[:SLACK_MAX_TEXT_LENGTH] + "\n..."` when over the limit. -/
def slackTrunc (t : String) : String :=
  if pyLen t > SLACK_MAX_TEXT_LENGTH then pySlice t SLACK_MAX_TEXT_LENGTH ++ "\n..."
  else t

/-- Lines 47–83 of `send_message`: construction of the outgoing message dict,
or the `Exception` raised when both `text` and `blocks` are falsy. -/
def send_message_build (title : String) (text : Option String) (color : Option String)
    (blocks : Option (List String)) (dividers : Bool) : Except PyErr SlackMsg :=
  let colorV := if truthyStr color then color.getD "" else "#000000"
  if truthyStr text then
    Except.ok
      { blocks := [Block.textSection title]
        attachments := [{ color := colorV
                          blocks := [Block.textSection (slackTrunc (text.getD ""))] }] }
  else if truthyList blocks then
    Except.ok
      { blocks := [Block.textSection title]
        attachments := [{ color := colorV
                          blocks := (blocks.getD []).foldl (fun acc block =>
                            acc ++ [Block.textSection (slackTrunc block)] ++
                              (if dividers then [Block.divider] else [])) [] }] }
  else
    Except.error (PyErr.exc "Either text or blocks must be passed.")

/-- `bibtutils.slack.message.send_message`: build the message dict, then post
it to the webhook (`requests.post` + `raise_for_status`, injected as `post`). -/
def send_message (post : String → SlackMsg → Except PyErr Unit) (webhook : String)
    (title : String) (text : Option String) (color : Option String)
    (blocks : Option (List String)) (dividers : Bool) : Except PyErr Unit := do
  let msg ← send_message_build title text color blocks dividers
  post webhook msg

/-- The triggering Pub/Sub context: an opaque event id (used only for
logging) and the timestamp string of the original triggering event. -/
structure Context where
  event_id : String
  timestamp : String

/-- The external collaborators of the embedded code.
`now` is the instant returned by `datetime.now(timezone.utc)` during the
call (the source reads the clock more than once a few microseconds apart;
the injected single instant is the spec's testability abstraction),
`parse` is `dateutil.parser.parse` composed with epoch conversion,
`strftime` is `datetime.strftime("%Y%m%dT%H%M%SZ")`,
`environ` is `os.environ.get`, `getSecretByUri` is
`bibtutils.gcp.secrets.get_secret_by_uri` (a pass-through to the GCP
Secret Manager client, raising on any client failure or a `None` uri),
`jsonLoads` is `json.loads` restricted to string-valued objects, and
`post` is `requests.post` + `raise_for_status`. -/
structure Env where
  now : Int
  parse : String → Except PyErr Int
  strftime : Int → String
  environ : String → Option String
  getSecretByUri : Option String → Except PyErr String
  jsonLoads : String → Except PyErr (List (String × String))
  post : String → SlackMsg → Except PyErr Unit

/-- `str(...)` of an optional string in an f-string (`None` prints as such). -/
def pyStrOpt : Option String → String
  | none => "None"
  | some s => s

/-- `bibtutils.slack.error._get_cfname`: `K_SERVICE` if truthy, else
`FUNCTION_NAME` with a default. -/
def _get_cfname (env : Env) : String :=
  let cfname := env.environ "K_SERVICE"
  if truthyStr cfname then cfname.getD ""
  else (env.environ "FUNCTION_NAME").getD "UNKNOWN (running locally?)"

/-- `bibtutils.slack.error.send_cf_fail_alert`: format the log-query
hyperlink and message and send it via `send_message`. -/
def send_cf_fail_alert (env : Env) (currenttime eventtime : Int)
    (webhook : String) : Except PyErr Unit :=
  let ctimestamp := env.strftime currenttime
  let etimestamp := env.strftime eventtime
  let cfname := _get_cfname env
  let hyperlink :=
    "https://console.cloud.google.com/logs/query;query=" ++
    "resource.type%3D%22cloud_function%22%0A" ++
    "resource.labels.function_name%3D%22" ++ cfname ++ "%22;" ++
    "timeRange=" ++ etimestamp ++ "%2F" ++ ctimestamp ++
    "?project=" ++ pyStrOpt (env.environ "_GOOGLE_PROJECT")
  let title := ":exclamation: *Cloud Function Failed* :exclamation: @here"
  let text :=
    "`" ++ cfname ++ "` exceeded its retry threshold in `" ++
    pyStrOpt (env.environ "_GOOGLE_PROJECT") ++ "`\n" ++
    "See logs here: <" ++ hyperlink ++ "|Logs Explorer>"
  let color := "#ff0000"
  send_message env.post webhook title (some text) (some color) none false

/-- A Python `try: ...; except Exception: log; pass` around a statement:
the failure is swallowed. -/
def tryPass (x : Except PyErr Unit) : Except PyErr Unit :=
  match x with
  | Except.ok _ => Except.ok ()
  | Except.error _ => Except.ok ()

/-- The body of the outer `try` of the notification branch of
`process_trigger` (lines 174–185): fetch the webhook secret named by the
environment variable, JSON-parse it, then (inner `try`) read its `"hook"`
field and send the fail alert, swallowing any alert-delivery failure. -/
def notifyAttempt (env : Env) (utctime eventtime : Int)
    (envarName : String) : Except PyErr Unit := do
  let webhook ← env.getSecretByUri (env.environ envarName)
  let webhookDict ← env.jsonLoads webhook
  tryPass (do
    let hook ← dictGetE webhookDict "hook"
    send_cf_fail_alert env utctime eventtime hook)

/-- `bibtutils.gcp.pubsub.process_trigger` (lines 162–201). The elapsed
time is computed twice, as in the source; if it exceeds `timeout_secs`,
the (doubly) guarded Slack notification is attempted when
`notify_slack == True` and `TimeoutError` is raised; otherwise the decoded
payload (or `None`) is returned. -/
def process_trigger (env : Env) (context : Context) (event : Option Event)
    (timeout_secs : Int) (notify_slack : Bool)
    (fail_alert_webhook_secret_uri : String) : Except PyErr (Option String) := do
  let utctime := env.now
  let eventtime ← env.parse context.timestamp
  let _lapsed0 := utctime - eventtime
  let eventtime2 ← env.parse context.timestamp
  let lapsed := env.now - eventtime2
  if lapsed > timeout_secs then do
    let _ ← if notify_slack == true then
        tryPass (notifyAttempt env utctime eventtime fail_alert_webhook_secret_uri)
      else Except.ok ()
    Except.error (PyErr.timeoutError timeout_secs (lapsed - timeout_secs))
  else
    pyPayload event

/-- The markdown texts of the section blocks of a block list, in order
(dividers contribute nothing). -/
def sectionTexts (bs : List Block) : List String :=
  bs.filterMap fun b => match b with
    | Block.textSection s => some s
    | Block.divider => none

/-- A concrete environment for the specification scenarios: the clock reads
`nowv`, the string `tsStr` parses to the instant `t0` (anything else raises
a parser error), no environment variables are set, and every delivery
capability raises. -/
def mkEnv (nowv : Int) (tsStr : String) (t0 : Int) : Env where
  now := nowv
  parse := fun s =>
    if s == tsStr then Except.ok t0 else Except.error (PyErr.parserError s)
  strftime := fun _ => "20230101T000000Z"
  environ := fun _ => none
  getSecretByUri := fun _ => Except.error (PyErr.exc "ServiceUnavailable")
  jsonLoads := fun _ => Except.error (PyErr.exc "Expecting value")
  post := fun _ _ => Except.error (PyErr.exc "ConnectionError")

/-- A variant of `mkEnv` in which the webhook secret is fetched and parsed
successfully, so that only the final `requests.post` of the alert raises. -/
def mkEnvPostFail (nowv : Int) (tsStr : String) (t0 : Int) : Env :=
  { mkEnv nowv tsStr t0 with
      getSecretByUri := fun _ => Except.ok "webhook-secret"
      jsonLoads := fun _ =>
        Except.ok [("hook", "https://hooks.slack.com/services/T/B/X")] }

/-- Seconds since the epoch of `2023-01-01T00:00:00Z`. -/
def epoch2023 : Int := 1672531200

/-- The triggering context of the specification scenarios. -/
def ctx2023 : Context := ⟨"1234", "2023-01-01T00:00:00Z"⟩

/-- The `try/except/pass` wrapper swallows every failure. -/
theorem tryPass_eq (x : Except PyErr Unit) : tryPass x = Except.ok () := by
  cases x <;> rfl

/-- Evaluation of `process_trigger` when the timestamp parses: the guard
decision depends only on the clock, the parsed instant and the threshold. -/
theorem process_trigger_eval (env : Env) (c : Context) (event : Option Event)
    (ts : Int) (n : Bool) (u : String) (t0 : Int)
    (h : env.parse c.timestamp = Except.ok t0) :
    process_trigger env c event ts n u =
      if env.now - t0 > ts then
        Except.error (PyErr.timeoutError ts (env.now - t0 - ts))
      else pyPayload event := by
  simp only [process_trigger, h, tryPass_eq, ite_self, bind, Except.bind]

/-- Evaluation of `process_trigger` when `dateutil.parser.parse` raises:
the parse failure propagates unchanged. -/
theorem process_trigger_parse_fail (env : Env) (c : Context) (event : Option Event)
    (ts : Int) (n : Bool) (u : String) (err : PyErr)
    (h : env.parse c.timestamp = Except.error err) :
    process_trigger env c event ts n u = Except.error err := by
  simp only [process_trigger, h, bind, Except.bind]

/-- Any failure of `b64decode` is a `binascii.Error`. -/
theorem b64decode_err (s : String) (e : PyErr) (h : b64decode s = Except.error e) :
    ∃ m, e = PyErr.binasciiError m := by
  simp only [b64decode] at h
  split at h
  · exact ⟨_, (Except.error.inj h).symm⟩
  · split at h
    · exact ⟨_, (Except.error.inj h).symm⟩
    · cases h

/-- Any failure of `utf8Decode` is a `UnicodeDecodeError`. -/
theorem utf8Decode_err (bs : List Nat) (e : PyErr)
    (h : utf8Decode bs = Except.error e) : e = PyErr.unicodeDecodeError := by
  unfold utf8Decode at h
  split at h
  · cases h
  · exact (Except.error.inj h).symm

/-- Any failure of `utf8DecodeStr` is a `UnicodeDecodeError`. -/
theorem utf8DecodeStr_err (bs : List Nat) (e : PyErr)
    (h : utf8DecodeStr bs = Except.error e) : e = PyErr.unicodeDecodeError := by
  unfold utf8DecodeStr at h
  cases hc : utf8Decode bs with
  | error e2 =>
    rw [hc] at h
    exact (Except.error.inj h).symm ▸ utf8Decode_err bs e2 hc
  | ok cs => rw [hc] at h; cases h

/-- Any failure of the payload stage of `process_trigger` is a payload
decoding failure (invalid base64 or invalid UTF-8). -/
theorem pyPayload_err (event : Option Event) (e : PyErr)
    (h : pyPayload event = Except.error e) :
    (∃ m, e = PyErr.binasciiError m) ∨ e = PyErr.unicodeDecodeError := by
  match event with
  | none => cases h
  | some ev =>
    simp only [pyPayload] at h
    split at h
    · cases hb : b64decode (dictGet ev "data") with
      | error eb =>
        rw [hb] at h
        simp only [bind, Except.bind] at h
        injection h with h1
        exact Or.inl (h1 ▸ b64decode_err _ _ hb)
      | ok bs =>
        rw [hb] at h
        simp only [bind, Except.bind] at h
        cases hu : utf8DecodeStr bs with
        | error eu =>
          rw [hu] at h
          injection h with h1
          exact Or.inr (h1 ▸ utf8DecodeStr_err _ _ hu)
        | ok s => rw [hu] at h; cases h
    · cases h

/-- C1 (amended): whenever the timestamp parses to `t0` and the elapsed time
`now - t0` is at most `timeout_secs`, and the payload stage succeeds (the
payload is absent or decodes from its base64 transport encoding to UTF-8
text), `process_trigger` returns normally with that payload, for every
notification configuration. -/
theorem proceed_within_timeout (env : Env) (c : Context) (event : Option Event)
    (ts : Int) (n : Bool) (u : String) (t0 : Int) (p : Option String)
    (hparse : env.parse c.timestamp = Except.ok t0)
    (hel : env.now - t0 ≤ ts)
    (hdec : pyPayload event = Except.ok p) :
    process_trigger env c event ts n u = Except.ok p := by
  rw [process_trigger_eval env c event ts n u t0 hparse, if_neg (not_lt.mpr hel), hdec]

/-- C1 witness: the scenario `trigger_timestamp = 2023-01-01T00:00:00Z`,
`now = 2023-01-01T00:29:00Z` (1740 s elapsed), `timeout_seconds = 1800`:
the guard proceeds, returning the (absent) payload. -/
theorem proceed_within_timeout_witness :
    (mkEnv (epoch2023 + 1740) "2023-01-01T00:00:00Z" epoch2023).now - epoch2023 ≤ 1800 ∧
    process_trigger (mkEnv (epoch2023 + 1740) "2023-01-01T00:00:00Z" epoch2023)
      ctx2023 none 1800 false "FAIL_ALERT_WEBHOOK_SECRET_URI" = Except.ok none :=
  ⟨by decide,
   proceed_within_timeout (mkEnv (epoch2023 + 1740) "2023-01-01T00:00:00Z" epoch2023)
     ctx2023 none 1800 false "FAIL_ALERT_WEBHOOK_SECRET_URI" epoch2023 none
     rfl (by decide) rfl⟩

/-- C1 as stated is false on the code: with zero elapsed time (well under the
threshold) but a payload whose base64-decoded bytes are not valid UTF-8
(`"/w=="`, the encoding of the byte `0xFF`), `process_trigger` raises a
`UnicodeDecodeError` instead of returning normally. -/
theorem proceed_within_timeout_cex :
    (mkEnv epoch2023 "2023-01-01T00:00:00Z" epoch2023).parse ctx2023.timestamp =
      Except.ok epoch2023 ∧
    (mkEnv epoch2023 "2023-01-01T00:00:00Z" epoch2023).now - epoch2023 ≤ 1800 ∧
    process_trigger (mkEnv epoch2023 "2023-01-01T00:00:00Z" epoch2023) ctx2023
      (some [("data", "/w==")]) 1800 false "FAIL_ALERT_WEBHOOK_SECRET_URI" =
      Except.error PyErr.unicodeDecodeError :=
  ⟨rfl, by decide, by decide⟩

/-- C2: whenever the timestamp parses to `t0` and the elapsed time exceeds
`timeout_secs`, `process_trigger` aborts with the `TimeoutError`, whose
carried quantities reconstruct exactly the computed elapsed seconds
`now - t0`, for every event and notification configuration. -/
theorem abort_over_timeout (env : Env) (c : Context) (event : Option Event)
    (ts : Int) (n : Bool) (u : String) (t0 : Int)
    (hparse : env.parse c.timestamp = Except.ok t0)
    (hel : env.now - t0 > ts) :
    process_trigger env c event ts n u =
      Except.error (PyErr.timeoutError ts (env.now - t0 - ts)) ∧
    ts + (env.now - t0 - ts) = env.now - t0 := by
  refine ⟨?_, by ring⟩
  rw [process_trigger_eval env c event ts n u t0 hparse, if_pos hel]

/-- C2 witness: the scenario `now = 2023-01-01T00:31:00Z` (1860 s elapsed),
`timeout_seconds = 1800`: the guard aborts carrying threshold 1800 and
overage 60, i.e. elapsed seconds 1860. -/
theorem abort_over_timeout_witness :
    (mkEnv (epoch2023 + 1860) "2023-01-01T00:00:00Z" epoch2023).now - epoch2023 > 1800 ∧
    process_trigger (mkEnv (epoch2023 + 1860) "2023-01-01T00:00:00Z" epoch2023)
      ctx2023 none 1800 false "FAIL_ALERT_WEBHOOK_SECRET_URI" =
      Except.error (PyErr.timeoutError 1800 60) ∧
    (1800 : Int) + 60 = 1860 := by
  have h := abort_over_timeout (mkEnv (epoch2023 + 1860) "2023-01-01T00:00:00Z" epoch2023)
    ctx2023 none 1800 false "FAIL_ALERT_WEBHOOK_SECRET_URI" epoch2023 rfl (by decide)
  exact ⟨by decide, by rw [h.1]; decide, by decide⟩

/-- C3: on the timeout path with notification enabled, the outcome is the
`TimeoutError` abort whatever the webhook-fetching, JSON-parsing and
alert-delivery capabilities do — identical to the outcome with notification
disabled, so no notification failure propagates or changes the abort. -/
theorem abort_notify_best_effort (env : Env) (c : Context) (event : Option Event)
    (ts : Int) (u : String) (t0 : Int)
    (hparse : env.parse c.timestamp = Except.ok t0)
    (hel : env.now - t0 > ts) :
    process_trigger env c event ts true u = process_trigger env c event ts false u ∧
    process_trigger env c event ts true u =
      Except.error (PyErr.timeoutError ts (env.now - t0 - ts)) := by
  rw [process_trigger_eval env c event ts true u t0 hparse,
    process_trigger_eval env c event ts false u t0 hparse, if_pos hel]
  exact ⟨rfl, rfl⟩

/-- C3 witness: with the webhook secret fetched and parsed but the HTTP post
of the alert raising (`mkEnvPostFail`), and in `mkEnv` (where even the
secret fetch raises, as when the locator variable is unset), the 1860 s
scenario still aborts with the unchanged `TimeoutError`. -/
theorem abort_notify_best_effort_witness :
    (mkEnvPostFail (epoch2023 + 1860) "2023-01-01T00:00:00Z" epoch2023).now - epoch2023 > 1800 ∧
    process_trigger (mkEnvPostFail (epoch2023 + 1860) "2023-01-01T00:00:00Z" epoch2023)
      ctx2023 none 1800 true "FAIL_ALERT_WEBHOOK_SECRET_URI" =
      Except.error (PyErr.timeoutError 1800 60) ∧
    process_trigger (mkEnv (epoch2023 + 1860) "2023-01-01T00:00:00Z" epoch2023)
      ctx2023 none 1800 true "FAIL_ALERT_WEBHOOK_SECRET_URI" =
      Except.error (PyErr.timeoutError 1800 60) := by
  have h1 := abort_notify_best_effort
    (mkEnvPostFail (epoch2023 + 1860) "2023-01-01T00:00:00Z" epoch2023)
    ctx2023 none 1800 "FAIL_ALERT_WEBHOOK_SECRET_URI" epoch2023 rfl (by decide)
  have h2 := abort_notify_best_effort
    (mkEnv (epoch2023 + 1860) "2023-01-01T00:00:00Z" epoch2023)
    ctx2023 none 1800 "FAIL_ALERT_WEBHOOK_SECRET_URI" epoch2023 rfl (by decide)
  exact ⟨by decide, by rw [h1.2]; decide, by rw [h2.2]; decide⟩

/-- C4 (amended): every outcome of `process_trigger` is one of: a normal
return, the `TimeoutError` abort, the propagated timestamp parse error, or
a propagated payload-decoding error. In particular no notification-delivery
failure ever surfaces. -/
theorem guard_exception_taxonomy (env : Env) (c : Context) (event : Option Event)
    (ts : Int) (n : Bool) (u : String) :
    (∃ p, process_trigger env c event ts n u = Except.ok p) ∨
    (∃ a b, process_trigger env c event ts n u =
      Except.error (PyErr.timeoutError a b)) ∨
    (∃ e, env.parse c.timestamp = Except.error e ∧
      process_trigger env c event ts n u = Except.error e) ∨
    (∃ e, pyPayload event = Except.error e ∧
      process_trigger env c event ts n u = Except.error e) := by
  cases hp : env.parse c.timestamp with
  | error e =>
    exact Or.inr (Or.inr (Or.inl
      ⟨e, rfl, process_trigger_parse_fail env c event ts n u e hp⟩))
  | ok t0 =>
    rw [process_trigger_eval env c event ts n u t0 hp]
    by_cases hel : env.now - t0 > ts
    · rw [if_pos hel]
      exact Or.inr (Or.inl ⟨ts, env.now - t0 - ts, rfl⟩)
    · rw [if_neg hel]
      cases hd : pyPayload event with
      | ok p => exact Or.inl ⟨p, rfl⟩
      | error e => exact Or.inr (Or.inr (Or.inr ⟨e, rfl, rfl⟩))

/-- C4 as stated is false on the code: with a well-formed timestamp and no
timeout, an event whose `"data"` field is not valid base64 (a single
character cannot be a base64 quantum) makes `process_trigger` propagate a
`binascii.Error` — an exception that is neither the timeout signal nor a
timestamp parse failure. -/
theorem guard_exception_taxonomy_cex :
    (mkEnv epoch2023 "2023-01-01T00:00:00Z" epoch2023).parse ctx2023.timestamp =
      Except.ok epoch2023 ∧
    process_trigger (mkEnv epoch2023 "2023-01-01T00:00:00Z" epoch2023) ctx2023
      (some [("data", "a")]) 1800 false "FAIL_ALERT_WEBHOOK_SECRET_URI" =
      Except.error (PyErr.binasciiError "Invalid base64-encoded string") :=
  ⟨rfl, by decide⟩

/-- C5: when the timestamp parses, the timeout is not exceeded, and the
event carries a `"data"` field that base64-decodes to bytes `bs` forming
the UTF-8 text `s`, `process_trigger` returns exactly that decoded string. -/
theorem proceed_payload_decoded (env : Env) (c : Context) (e : Event)
    (ts : Int) (n : Bool) (u : String) (t0 : Int) (bs : List Nat) (s : String)
    (hparse : env.parse c.timestamp = Except.ok t0)
    (hel : env.now - t0 ≤ ts)
    (hdata : dictContains e "data" = true)
    (hb64 : b64decode (dictGet e "data") = Except.ok bs)
    (hutf : utf8DecodeStr bs = Except.ok s) :
    process_trigger env c (some e) ts n u = Except.ok (some s) := by
  rw [process_trigger_eval env c (some e) ts n u t0 hparse, if_neg (not_lt.mpr hel)]
  simp only [pyPayload, hdata, if_pos, hb64, hutf, bind, Except.bind]

/-- C5 witness: a payload that is the base64 encoding of `"hello"`
(`"aGVsbG8="`), under the threshold, yields `Proceed("hello")`. -/
theorem proceed_payload_decoded_witness :
    b64decode "aGVsbG8=" = Except.ok [104, 101, 108, 108, 111] ∧
    utf8DecodeStr [104, 101, 108, 108, 111] = Except.ok "hello" ∧
    process_trigger (mkEnv (epoch2023 + 1740) "2023-01-01T00:00:00Z" epoch2023)
      ctx2023 (some [("data", "aGVsbG8=")]) 1800 false "FAIL_ALERT_WEBHOOK_SECRET_URI" =
      Except.ok (some "hello") :=
  ⟨by decide, by decide,
   proceed_payload_decoded (mkEnv (epoch2023 + 1740) "2023-01-01T00:00:00Z" epoch2023)
     ctx2023 [("data", "aGVsbG8=")] 1800 false "FAIL_ALERT_WEBHOOK_SECRET_URI"
     epoch2023 [104, 101, 108, 108, 111] "hello"
     rfl (by decide) rfl (by decide) (by decide)⟩

/-- C6: on the Proceed path, an absent payload (no event, or an event
without the `"data"` field) yields the explicit `None` marker, which is
distinct from the empty string result. -/
theorem proceed_absent_payload (env : Env) (c : Context) (event : Option Event)
    (ts : Int) (n : Bool) (u : String) (t0 : Int)
    (hparse : env.parse c.timestamp = Except.ok t0)
    (hel : env.now - t0 ≤ ts)
    (habs : event = none ∨ ∃ e, event = some e ∧ dictContains e "data" = false) :
    process_trigger env c event ts n u = Except.ok none ∧
    process_trigger env c event ts n u ≠ Except.ok (some "") := by
  have hres : process_trigger env c event ts n u = Except.ok none := by
    rw [process_trigger_eval env c event ts n u t0 hparse, if_neg (not_lt.mpr hel)]
    rcases habs with h | ⟨e, he, hd⟩
    · rw [h]; rfl
    · rw [he]; simp [pyPayload, hd]
  refine ⟨hres, ?_⟩
  rw [hres]
  intro hcontra
  exact Option.noConfusion (Except.ok.inj hcontra)

/-- C6 witness: the under-threshold scenario with no event returns `None`,
not `""`. -/
theorem proceed_absent_payload_witness :
    (mkEnv (epoch2023 + 1740) "2023-01-01T00:00:00Z" epoch2023).now - epoch2023 ≤ 1800 ∧
    process_trigger (mkEnv (epoch2023 + 1740) "2023-01-01T00:00:00Z" epoch2023)
      ctx2023 none 1800 false "FAIL_ALERT_WEBHOOK_SECRET_URI" = Except.ok none ∧
    process_trigger (mkEnv (epoch2023 + 1740) "2023-01-01T00:00:00Z" epoch2023)
      ctx2023 none 1800 false "FAIL_ALERT_WEBHOOK_SECRET_URI" ≠ Except.ok (some "") := by
  have h := proceed_absent_payload
    (mkEnv (epoch2023 + 1740) "2023-01-01T00:00:00Z" epoch2023)
    ctx2023 none 1800 false "FAIL_ALERT_WEBHOOK_SECRET_URI" epoch2023
    rfl (by decide) (Or.inl rfl)
  exact ⟨by decide, h.1, h.2⟩

/-- C7 (amended): when the clock reads earlier than the trigger timestamp
(negative elapsed time) and the timeout threshold is non-negative, the
guard never aborts — the result is never the `TimeoutError` — and it
proceeds with the payload whenever the payload stage succeeds. -/
theorem clock_skew_no_abort (env : Env) (c : Context) (event : Option Event)
    (ts : Int) (n : Bool) (u : String) (t0 : Int)
    (hparse : env.parse c.timestamp = Except.ok t0)
    (hskew : env.now < t0)
    (hts : 0 ≤ ts) :
    (∀ a b, process_trigger env c event ts n u ≠
      Except.error (PyErr.timeoutError a b)) ∧
    (∀ p, pyPayload event = Except.ok p →
      process_trigger env c event ts n u = Except.ok p) := by
  have hel : env.now - t0 ≤ ts := le_trans (by omega) hts
  rw [process_trigger_eval env c event ts n u t0 hparse, if_neg (not_lt.mpr hel)]
  constructor
  · intro a b h
    rcases pyPayload_err event _ h with ⟨m, hm⟩ | hm <;> cases hm
  · intro p h
    exact h

/-- C7 witness: clock 100 s before the trigger timestamp, threshold 1800,
no payload: the guard proceeds with `None`. -/
theorem clock_skew_no_abort_witness :
    (mkEnv (epoch2023 - 100) "2023-01-01T00:00:00Z" epoch2023).now < epoch2023 ∧
    (0 : Int) ≤ 1800 ∧
    process_trigger (mkEnv (epoch2023 - 100) "2023-01-01T00:00:00Z" epoch2023)
      ctx2023 none 1800 false "FAIL_ALERT_WEBHOOK_SECRET_URI" = Except.ok none :=
  ⟨by decide, by decide,
   (clock_skew_no_abort (mkEnv (epoch2023 - 100) "2023-01-01T00:00:00Z" epoch2023)
     ctx2023 none 1800 false "FAIL_ALERT_WEBHOOK_SECRET_URI" epoch2023
     rfl (by decide) (by decide)).2 none rfl⟩

/-- C7 as stated is false on the code: with the clock 100 s before the
trigger timestamp and a non-negative threshold, a payload whose bytes are
not valid UTF-8 makes `process_trigger` raise rather than proceed — the
clock-skew policy prevents aborting, not every non-Proceed outcome. -/
theorem clock_skew_no_abort_cex :
    (mkEnv (epoch2023 - 100) "2023-01-01T00:00:00Z" epoch2023).now < epoch2023 ∧
    process_trigger (mkEnv (epoch2023 - 100) "2023-01-01T00:00:00Z" epoch2023)
      ctx2023 (some [("data", "/w==")]) 1800 false "FAIL_ALERT_WEBHOOK_SECRET_URI" =
      Except.error PyErr.unicodeDecodeError :=
  ⟨by decide, by decide⟩

/-- C8: the guard is stateless — its embedding is a pure function of the
injected collaborators and the call arguments (the source reads no module
state on the decision path other than loggers), so calling it twice with
identical inputs yields identical results. -/
theorem process_trigger_idempotent (env : Env) (c : Context) (event : Option Event)
    (ts : Int) (n : Bool) (u : String) :
    process_trigger env c event ts n u = process_trigger env c event ts n u := rfl

/-- C9: whenever both `text` and `blocks` are absent or empty (Python-falsy),
`send_message` raises `Exception("Either text or blocks must be passed.")`
whatever the HTTP capability does — in particular before any webhook
delivery can occur, since the result does not depend on `post` at all. -/
theorem send_message_requires_body (post : String → SlackMsg → Except PyErr Unit)
    (webhook title : String) (text : Option String) (color : Option String)
    (blocks : Option (List String)) (dividers : Bool)
    (htext : truthyStr text = false) (hblocks : truthyList blocks = false) :
    send_message post webhook title text color blocks dividers =
      Except.error (PyErr.exc "Either text or blocks must be passed.") := by
  simp only [send_message, send_message_build, htext, hblocks, Bool.false_eq_true,
    if_false, bind, Except.bind]

/-- C9 witness: `text = None`, `blocks = None`, with an HTTP capability that
would succeed: the call still raises before posting anything. -/
theorem send_message_requires_body_witness :
    truthyStr none = false ∧ truthyList none = false ∧
    send_message (fun _ _ => Except.ok ()) "https://hooks.slack.com/services/T/B/X"
      "title" none none none false =
      Except.error (PyErr.exc "Either text or blocks must be passed.") :=
  ⟨rfl, rfl,
   send_message_requires_body (fun _ _ => Except.ok ())
     "https://hooks.slack.com/services/T/B/X" "title" none none none false rfl rfl⟩

/-- `pyLen` distributes over string append. -/
theorem pyLen_append (a b : String) : pyLen (a ++ b) = pyLen a + pyLen b := by
  simp [pyLen, String.data_append]

/-- Length of a Python slice. -/
theorem pyLen_pySlice (s : String) (n : Nat) :
    pyLen (pySlice s n) = min n (pyLen s) := by
  simp [pyLen, pySlice, List.length_take]

/-- Inputs within the limit are passed through unchanged. -/
theorem slackTrunc_short (t : String) (h : pyLen t ≤ SLACK_MAX_TEXT_LENGTH) :
    slackTrunc t = t := by
  unfold slackTrunc
  rw [if_neg (by omega)]

/-- Inputs over the limit are cut at the limit and marked with `"\n..."`. -/
theorem slackTrunc_long (t : String) (h : pyLen t > SLACK_MAX_TEXT_LENGTH) :
    slackTrunc t = pySlice t SLACK_MAX_TEXT_LENGTH ++ "\n..." := by
  unfold slackTrunc
  rw [if_pos h]

/-- A truncated over-limit input has length exactly the limit plus four. -/
theorem pyLen_slackTrunc_long (t : String) (h : pyLen t > SLACK_MAX_TEXT_LENGTH) :
    pyLen (slackTrunc t) = SLACK_MAX_TEXT_LENGTH + 4 := by
  rw [slackTrunc_long t h, pyLen_append, pyLen_pySlice]
  have h4 : pyLen "\n..." = 4 := rfl
  omega

/-- No output of the truncation exceeds the limit plus four. -/
theorem pyLen_slackTrunc_le (t : String) :
    pyLen (slackTrunc t) ≤ SLACK_MAX_TEXT_LENGTH + 4 := by
  by_cases h : pyLen t > SLACK_MAX_TEXT_LENGTH
  · rw [pyLen_slackTrunc_long t h]
  · rw [slackTrunc_short t (by omega)]
    omega

/-- `sectionTexts` distributes over block-list append. -/
theorem sectionTexts_append (xs ys : List Block) :
    sectionTexts (xs ++ ys) = sectionTexts xs ++ sectionTexts ys := by
  simp [sectionTexts, List.filterMap_append]

/-- The section texts produced by the `blocks` loop of `send_message` are
the truncations of the inputs, in order, dividers notwithstanding. -/
theorem sectionTexts_foldl (dividers : Bool) (bs : List String) (acc : List Block) :
    sectionTexts (bs.foldl (fun acc2 block =>
      acc2 ++ [Block.textSection (slackTrunc block)] ++
        (if dividers then [Block.divider] else [])) acc) =
    sectionTexts acc ++ bs.map slackTrunc := by
  induction bs generalizing acc with
  | nil => simp
  | cons b bs ih =>
    rw [List.foldl_cons, ih]
    cases dividers <;> simp [sectionTexts_append, sectionTexts]

/-- C10: whenever `send_message` builds a message, the texts placed in its
attachment sections are exactly the input `text` (or the input `blocks`
entries, in order) passed through the truncation: inputs of more than 2965
characters are cut to their first 2965 characters followed by `"\n..."`
(total length 2969), shorter inputs are unchanged, and consequently no
attachment section text exceeds 2969 characters. -/
theorem send_message_truncation (title : String) (text : Option String)
    (color : Option String) (blocks : Option (List String)) (dividers : Bool)
    (msg : SlackMsg)
    (h : send_message_build title text color blocks dividers = Except.ok msg) :
    (∀ a ∈ msg.attachments,
      sectionTexts a.blocks =
        (if truthyStr text then [text.getD ""] else blocks.getD []).map slackTrunc) ∧
    (∀ a ∈ msg.attachments, ∀ s ∈ sectionTexts a.blocks, pyLen s ≤ 2969) ∧
    (∀ t, pyLen t ≤ 2965 → slackTrunc t = t) ∧
    (∀ t, pyLen t > 2965 →
      slackTrunc t = pySlice t 2965 ++ "\n..." ∧ pyLen (slackTrunc t) = 2969) := by
  have hM : SLACK_MAX_TEXT_LENGTH = 2965 := rfl
  have hbound : ∀ t, pyLen (slackTrunc t) ≤ 2969 := fun t => by
    have := pyLen_slackTrunc_le t
    omega
  have hmain : ∀ a ∈ msg.attachments,
      sectionTexts a.blocks =
        (if truthyStr text then [text.getD ""] else blocks.getD []).map slackTrunc := by
    simp only [send_message_build] at h
    by_cases ht : truthyStr text = true
    · rw [if_pos ht] at h
      rw [if_pos ht]
      injection h with h1
      subst h1
      intro a ha
      simp only [List.mem_singleton] at ha
      subst ha
      simp [sectionTexts]
    · rw [if_neg ht] at h
      rw [if_neg ht]
      by_cases hb : truthyList blocks = true
      · rw [if_pos hb] at h
        injection h with h1
        subst h1
        intro a ha
        simp only [List.mem_singleton] at ha
        subst ha
        exact (sectionTexts_foldl dividers (blocks.getD []) []).trans (by simp [sectionTexts])
      · rw [if_neg hb] at h
        cases h
  refine ⟨hmain, ?_, fun t ht2 => slackTrunc_short t (by omega),
    fun t ht2 => ⟨hM ▸ slackTrunc_long t (by omega),
      by have := pyLen_slackTrunc_long t (by omega); omega⟩⟩
  intro a ha s hs
  rw [hmain a ha] at hs
  simp only [List.mem_map] at hs
  obtain ⟨t, _, rfl⟩ := hs
  exact hbound t

/-- C10 witness: a short text is placed unchanged, and an over-limit input
is truncated to length 2969. -/
theorem send_message_truncation_witness :
    send_message_build "title" (some "hi") none none false =
      Except.ok ⟨[Block.textSection "title"],
        [⟨"#000000", [Block.textSection "hi"]⟩]⟩ ∧
    pyLen "hi" ≤ 2965 ∧ slackTrunc "hi" = "hi" ∧
    pyLen ⟨List.replicate 3000 'a'⟩ > 2965 ∧
    pyLen (slackTrunc ⟨List.replicate 3000 'a'⟩) = 2969 := by
  have h := send_message_truncation "title" (some "hi") none none false
    ⟨[Block.textSection "title"], [⟨"#000000", [Block.textSection "hi"]⟩]⟩ (by decide)
  have hrep : pyLen (⟨List.replicate 3000 'a'⟩ : String) = 3000 :=
    List.length_replicate 3000 'a'
  refine ⟨by decide, by decide, h.2.2.1 "hi" (by decide), by omega,
    (h.2.2.2 ⟨List.replicate 3000 'a'⟩ (by omega)).2⟩

end Bibtutils
